import Mathlib

/-!
Shallow embedding of the orion-error structured-error library
(src/core/universal.rs, src/core/reason.rs, src/core/error.rs,
src/core/context.rs, src/traits/owenance.rs) together with theorems
settling the specification claims about it.

Rust machine integers (`i32` error codes) stay within tiny literal
ranges here, so they are modelled as `Int` without wraparound.
Generic trait bounds (`T: DomainReason`, `From` impls, `ErrorCode`
impls, `E: Display`) become explicit type parameters and function
parameters of the embedding.
-/

namespace OrionError

/-- Configuration error sub-classification (`ConfErrReason`, universal.rs). -/
inductive ConfErrReason where
  | Core (msg : String)
  | Feature (msg : String)
  | Dynamic (msg : String)
  deriving DecidableEq

/-- Strongly typed error payload wrapper (`ErrorPayload(String)`, universal.rs). -/
structure ErrorPayload where
  msg : String
  deriving DecidableEq

/-- Universal error reason classification (`UvsReason`, universal.rs). -/
inductive UvsReason where
  | ValidationError (p : ErrorPayload)
  | BusinessError (p : ErrorPayload)
  | NotFoundError (p : ErrorPayload)
  | PermissionError (p : ErrorPayload)
  | DataError (p : ErrorPayload) (pos : Option Nat)
  | SystemError (p : ErrorPayload)
  | NetworkError (p : ErrorPayload)
  | ResourceError (p : ErrorPayload)
  | TimeoutError (p : ErrorPayload)
  | ConfigError (c : ConfErrReason)
  | ExternalError (p : ErrorPayload)
  | LogicError (p : ErrorPayload)
  deriving DecidableEq

namespace UvsReason

/-- Constructor `UvsReason::core_conf` (universal.rs). -/
def core_conf (msg : String) : UvsReason := .ConfigError (.Core msg)

/-- Constructor `UvsReason::feature_conf` (universal.rs). -/
def feature_conf (msg : String) : UvsReason := .ConfigError (.Feature msg)

/-- Constructor `UvsReason::dynamic_conf` (universal.rs). -/
def dynamic_conf (msg : String) : UvsReason := .ConfigError (.Dynamic msg)

/-- Constructor `UvsReason::validation_error` (universal.rs). -/
def validation_error (msg : String) : UvsReason := .ValidationError ⟨msg⟩

/-- Constructor `UvsReason::business_error` (universal.rs). -/
def business_error (msg : String) : UvsReason := .BusinessError ⟨msg⟩

/-- Constructor `UvsReason::not_found_error` (universal.rs). -/
def not_found_error (msg : String) : UvsReason := .NotFoundError ⟨msg⟩

/-- Constructor `UvsReason::permission_error` (universal.rs). -/
def permission_error (msg : String) : UvsReason := .PermissionError ⟨msg⟩

/-- Constructor `UvsReason::data_error` (universal.rs). -/
def data_error (msg : String) (pos : Option Nat) : UvsReason := .DataError ⟨msg⟩ pos

/-- Constructor `UvsReason::system_error` (universal.rs). -/
def system_error (msg : String) : UvsReason := .SystemError ⟨msg⟩

/-- Constructor `UvsReason::network_error` (universal.rs). -/
def network_error (msg : String) : UvsReason := .NetworkError ⟨msg⟩

/-- Constructor `UvsReason::resource_error` (universal.rs). -/
def resource_error (msg : String) : UvsReason := .ResourceError ⟨msg⟩

/-- Constructor `UvsReason::timeout_error` (universal.rs). -/
def timeout_error (msg : String) : UvsReason := .TimeoutError ⟨msg⟩

/-- Constructor `UvsReason::external_error` (universal.rs). -/
def external_error (msg : String) : UvsReason := .ExternalError ⟨msg⟩

/-- Constructor `UvsReason::logic_error` (universal.rs). -/
def logic_error (msg : String) : UvsReason := .LogicError ⟨msg⟩

/-- The `ErrorCode for UvsReason` impl (universal.rs, lines 461-483). -/
def error_code : UvsReason → Int
  | .ValidationError _ => 100
  | .BusinessError _ => 101
  | .NotFoundError _ => 102
  | .PermissionError _ => 103
  | .LogicError _ => 104
  | .DataError _ _ => 200
  | .SystemError _ => 201
  | .NetworkError _ => 202
  | .ResourceError _ => 203
  | .TimeoutError _ => 204
  | .ConfigError _ => 300
  | .ExternalError _ => 301

/-- The `UvsReason::is_retryable` method (universal.rs, lines 490-510). -/
def is_retryable : UvsReason → Bool
  | .NetworkError _ => true
  | .TimeoutError _ => true
  | .ResourceError _ => true
  | .SystemError _ => true
  | .ExternalError _ => true
  | .ValidationError _ => false
  | .BusinessError _ => false
  | .NotFoundError _ => false
  | .PermissionError _ => false
  | .ConfigError _ => false
  | .DataError _ _ => false
  | .LogicError _ => false

/-- The `UvsReason::is_high_severity` method (universal.rs). -/
def is_high_severity : UvsReason → Bool
  | .SystemError _ => true
  | .ResourceError _ => true
  | .ConfigError _ => true
  | _ => false

/-- The `UvsReason::category_name` method (universal.rs). -/
def category_name : UvsReason → String
  | .ValidationError _ => "validation"
  | .BusinessError _ => "business"
  | .NotFoundError _ => "not_found"
  | .PermissionError _ => "permission"
  | .DataError _ _ => "data"
  | .SystemError _ => "system"
  | .NetworkError _ => "network"
  | .ResourceError _ => "resource"
  | .TimeoutError _ => "timeout"
  | .ConfigError _ => "config"
  | .ExternalError _ => "external"
  | .LogicError _ => "logic"

end UvsReason

/-- The `ErrorCode` trait default method body, which returns 500 (reason.rs, lines 26-30). -/
def trait_default_error_code : Int := 500

/-- The two-armed reason union (`StructReason<T>`, reason.rs). -/
inductive StructReason (T : Type) where
  | Universal (u : UvsReason)
  | Domain (d : T)

/-- The `ErrorCode for StructReason<T>` impl (reason.rs); the domain type's
`error_code` method is passed explicitly as `codeT`. -/
def StructReason.error_code (codeT : T → Int) : StructReason T → Int
  | .Universal u => u.error_code
  | .Domain d => codeT d

/-- The `convert_reason` function (reason.rs, lines 40-50); the
`StructReason<R2>: From<R1>` bound is passed explicitly as `f`. -/
def convert_reason (f : R1 → StructReason R2) : StructReason R1 → StructReason R2
  | .Universal u => .Universal u
  | .Domain d => f d

/-- Ordered key/value context bag (`CallContext`, context.rs; imported as
`ErrContext` by error.rs). -/
structure CallContext where
  items : List (String × String)

/-- Alias used by error.rs for `CallContext`. -/
abbrev ErrContext := CallContext

/-- Outcome flag of an operation context (`OperationResult`, context.rs). -/
inductive OperationResult where
  | Suc
  | Fail
  | Cancel
  deriving DecidableEq

/-- Compile-time module path used as default log target (context.rs). -/
def DEFAULT_MOD_PATH : String := "orion_error::core::context"

/-- The mutable annotation bag attached to an in-flight operation
(`OperationContext`, context.rs; `WithContext` is an alias for it). -/
structure OperationContext where
  context : CallContext
  result : OperationResult
  exit_log : Bool
  mod_path : String
  target : Option String

/-- Alias `pub type WithContext = OperationContext` (context.rs). -/
abbrev WithContext := OperationContext

namespace OperationContext

/-- `OperationContext::new` (context.rs). -/
def new : OperationContext :=
  { target := none, context := ⟨[]⟩, result := .Fail, exit_log := false
    mod_path := DEFAULT_MOD_PATH }

/-- `OperationContext::want` static constructor (context.rs). -/
def want (target : String) : OperationContext :=
  { target := some target, context := ⟨[]⟩, result := .Fail, exit_log := false
    mod_path := DEFAULT_MOD_PATH }

/-- `ContextRecord::record` (context.rs): push one key/value fact. -/
def record (c : OperationContext) (key val : String) : OperationContext :=
  { c with context := ⟨c.context.items ++ [(key, val)]⟩ }

/-- `OperationContext::with_want` (context.rs). -/
def with_want (c : OperationContext) (target : String) : OperationContext :=
  { c with target := some target }

/-- `OperationContext::with_auto_log` (context.rs). -/
def with_auto_log (c : OperationContext) : OperationContext :=
  { c with exit_log := true }

/-- `OperationContext::mark_suc` (context.rs, lines 239-241). -/
def mark_suc (c : OperationContext) : OperationContext :=
  { c with result := .Suc }

/-- `OperationContext::mark_cancel` (context.rs, lines 242-244). -/
def mark_cancel (c : OperationContext) : OperationContext :=
  { c with result := .Cancel }

/-- `Drop for OperationScope` (context.rs, lines 419-425): on scope exit the
guard calls `mark_suc` exactly when its `mark_success` flag is set. -/
def scope_exit (c : OperationContext) (mark_success : Bool) : OperationContext :=
  if mark_success then c.mark_suc else c

end OperationContext

/-- Structured error record (`StructErrorImpl<T>` inside `StructError<T>`,
error.rs; the `Box` indirection has no observable effect and is dropped). -/
structure StructError (T : Type) where
  reason : StructReason T
  detail : Option String
  position : Option String
  target : Option String
  context : ErrContext

namespace StructError

/-- `StructError::new` (error.rs, lines 58-76); argument order follows the source. -/
def new (reason : StructReason T) (detail : Option String) (position : Option String)
    (target : Option String) (context : ErrContext) : StructError T :=
  { reason := reason, detail := detail, position := position, target := target
    context := context }

/-- `StructError::domain` / the `From<T> for StructError<T>` impl (error.rs). -/
def domain (reason : T) : StructError T :=
  new (.Domain reason) none none none ⟨[]⟩

/-- `StructError::universal` (error.rs). -/
def universal (reason : UvsReason) : StructError T :=
  new (.Universal reason) none none none ⟨[]⟩

/-- `StructError::with_position` (error.rs). -/
def with_position (e : StructError T) (pos : String) : StructError T :=
  { e with position := some pos }

/-- `StructError::with_detail` (error.rs). -/
def with_detail (e : StructError T) (detail : String) : StructError T :=
  { e with detail := some detail }

/-- `StructError::with_context` (error.rs, lines 117-120): replaces the whole
`ErrContext` field. -/
def with_context (e : StructError T) (context : ErrContext) : StructError T :=
  { e with context := context }

/-- `ErrorWith::want for StructError` (error.rs, lines 208-214). -/
def want (e : StructError T) (desc : String) : StructError T :=
  { e with target := some desc }

/-- `ContextAdd<&WithContext> for StructError` (error.rs, lines 164-174):
replace the target when the incoming context carries one, then append the
incoming items; `ErrorWith::with` (lines 218-221) forwards to this. -/
def add_context (e : StructError T) (ctx : WithContext) : StructError T :=
  { e with
      target := match ctx.target with
        | some t => some t
        | none => e.target
      context := ⟨e.context.items ++ ctx.context.items⟩ }

/-- `ErrorCode for StructError<T>` (error.rs, lines 29-33). -/
def error_code (codeT : T → Int) (e : StructError T) : Int :=
  e.reason.error_code codeT

/-- `StructError::from_uvs` (error.rs, lines 259-270): note that the source
passes `e.position` into the `detail` slot of `new` and `e.detail` into the
`position` slot. -/
def from_uvs (e : StructError R1) (reason : UvsReason) : StructError R :=
  new (.Universal reason) e.position e.detail e.target e.context

end StructError

/-- The `convert_error` function (error.rs, lines 95-108); the
`StructReason<R2>: From<R1>` bound is passed explicitly as `f`. -/
def convert_error (f : R1 → StructReason R2) (other : StructError R1) : StructError R2 :=
  StructError.new (convert_reason f other.reason) other.detail other.position
    other.target other.context

/-- Rust's `Result<T, E>`, the receiver type of the `ErrorOwe` impl. -/
inductive Result (T E : Type) where
  | ok (v : T)
  | err (e : E)

/-- The `map_err_with` helper (owenance.rs): stringify the foreign error,
build a reason from the message, wrap it as a domain `StructError` and stash
the message as detail. `toStr` stands for the `E: Display` bound. -/
def map_err_with (toStr : E → String) (f : String → R) :
    Result T E → Result T (StructError R)
  | .ok v => .ok v
  | .err e =>
      let msg := toStr e
      let reason := f msg
      .err ((StructError.domain reason).with_detail msg)

/-- `ErrorOwe::owe` (owenance.rs): wrap a supplied domain reason directly,
stashing the foreign message as detail. -/
def owe (reason : R) (toStr : E → String) : Result T E → Result T (StructError R)
  | .ok v => .ok v
  | .err e => .err ((StructError.domain reason).with_detail (toStr e))

/-- `ErrorOwe::owe_logic` (owenance.rs); `fromUvs` stands for the
`R: From<UvsReason>` bound. -/
def owe_logic (fromUvs : UvsReason → R) (toStr : E → String) :
    Result T E → Result T (StructError R) :=
  map_err_with toStr (fun msg => fromUvs (UvsReason.logic_error msg))

/-- `ErrorOwe::owe_biz` (owenance.rs). -/
def owe_biz (fromUvs : UvsReason → R) (toStr : E → String) :
    Result T E → Result T (StructError R) :=
  map_err_with toStr (fun msg => fromUvs (UvsReason.business_error msg))

/-- `ErrorOwe::owe_validation` (owenance.rs). -/
def owe_validation (fromUvs : UvsReason → R) (toStr : E → String) :
    Result T E → Result T (StructError R) :=
  map_err_with toStr (fun msg => fromUvs (UvsReason.validation_error msg))

/-- `ErrorOwe::owe_data` (owenance.rs): goes through `UvsDataFrom::from_data`
with position `None` (universal.rs). -/
def owe_data (fromUvs : UvsReason → R) (toStr : E → String) :
    Result T E → Result T (StructError R) :=
  map_err_with toStr (fun msg => fromUvs (UvsReason.data_error msg none))

/-- `ErrorOwe::owe_conf` (owenance.rs): uses `UvsReason::core_conf`. -/
def owe_conf (fromUvs : UvsReason → R) (toStr : E → String) :
    Result T E → Result T (StructError R) :=
  map_err_with toStr (fun msg => fromUvs (UvsReason.core_conf msg))

/-- `ErrorOwe::owe_res` (owenance.rs). -/
def owe_res (fromUvs : UvsReason → R) (toStr : E → String) :
    Result T E → Result T (StructError R) :=
  map_err_with toStr (fun msg => fromUvs (UvsReason.resource_error msg))

/-- `ErrorOwe::owe_net` (owenance.rs): goes through `UvsNetFrom::from_net`
(universal.rs). -/
def owe_net (fromUvs : UvsReason → R) (toStr : E → String) :
    Result T E → Result T (StructError R) :=
  map_err_with toStr (fun msg => fromUvs (UvsReason.network_error msg))

/-- `ErrorOwe::owe_timeout` (owenance.rs): goes through
`UvsTimeoutFrom::from_timeout` (universal.rs). -/
def owe_timeout (fromUvs : UvsReason → R) (toStr : E → String) :
    Result T E → Result T (StructError R) :=
  map_err_with toStr (fun msg => fromUvs (UvsReason.timeout_error msg))

/-- `ErrorOwe::owe_sys` (owenance.rs): goes through `UvsSysFrom::from_sys`
(universal.rs). -/
def owe_sys (fromUvs : UvsReason → R) (toStr : E → String) :
    Result T E → Result T (StructError R) :=
  map_err_with toStr (fun msg => fromUvs (UvsReason.system_error msg))

/-- Detail field of the error arm of a `Result<T, StructError<R>>`. -/
def Result.errDetail : Result T (StructError R) → Option String
  | .err er => er.detail
  | .ok _ => none

/-- Reason field of the error arm of a `Result<T, StructError<R>>`. -/
def Result.errReason : Result T (StructError R) → Option (StructReason R)
  | .err er => some er.reason
  | .ok _ => none

/-- `error_code()` of the error arm of a `Result<T, StructError<R>>`. -/
def Result.errCode (codeR : R → Int) : Result T (StructError R) → Option Int
  | .err er => some (er.error_code codeR)
  | .ok _ => none

/-- Context-stack lines of `Display for StructError` (error.rs, lines
197-202): one line per item, numbered starting from `i`. -/
def contextStackLines : Nat → List (String × String) → String
  | _, [] => ""
  | i, (k, v) :: rest =>
      "\n     " ++ toString i ++ ". " ++ k ++ ":" ++ v ++ contextStackLines (i + 1) rest

/-- `Display for StructError` (error.rs, lines 176-206). The reason's own
`Display` instance (the `T: Display` bound plus the derived `StructReason`
rendering) is passed explicitly as `showR`. -/
def StructError.display (codeT : T → Int) (showR : StructReason T → String)
    (e : StructError T) : String :=
  "[" ++ toString (e.error_code codeT) ++ "] " ++ showR e.reason
    ++ (match e.position with
        | some pos => "\n  -> At: " ++ pos
        | none => "")
    ++ (match e.target with
        | some target => "\n  -> Want: " ++ target
        | none => "")
    ++ (match e.detail with
        | some detail => "\n  -> Details: " ++ detail
        | none => "")
    ++ (if e.context.items.isEmpty then ""
        else "\n  -> Context stack:" ++ contextStackLines 1 e.context.items)

/-- Rendering contract written from the spec's words: the header
`"[<code>] <reason-text>"`, then, each on a new indented line and only when
present, the `At`/`Want`/`Details` lines in that order, then, when the
context list is non-empty, a `Context stack:` line followed by one line per
entry numbered from 1 with the entry's key and value. -/
def displayContract (codeT : T → Int) (showR : StructReason T → String)
    (e : StructError T) : String :=
  let header := "[" ++ toString (e.error_code codeT) ++ "] " ++ showR e.reason
  let optLine : String → Option String → String := fun label field =>
    match field with
    | some s => "\n  -> " ++ label ++ ": " ++ s
    | none => ""
  let numbered := (e.context.items.enum).map
    (fun p => "\n     " ++ toString (p.1 + 1) ++ ". " ++ p.2.1 ++ ":" ++ p.2.2)
  let ctxPart :=
    if e.context.items = [] then ""
    else "\n  -> Context stack:" ++ numbered.foldr (fun a b => a ++ b) ""
  header ++ optLine "At" e.position ++ optLine "Want" e.target
    ++ optLine "Details" e.detail ++ ctxPart

/-- Mutating operations available on an `OperationContext` (context.rs):
the two outcome setters, the fact recorder, the target setters, the log
flag, and the scope-guard exit (`Drop for OperationScope`). -/
inductive CtxOp where
  | markSuc
  | markCancel
  | record (key val : String)
  | withWant (target : String)
  | withAutoLog
  | scopeExit (mark_success : Bool)

/-- Apply one `CtxOp` to an `OperationContext`. -/
def applyOp (c : OperationContext) : CtxOp → OperationContext
  | .markSuc => c.mark_suc
  | .markCancel => c.mark_cancel
  | .record k v => c.record k v
  | .withWant t => c.with_want t
  | .withAutoLog => c.with_auto_log
  | .scopeExit b => c.scope_exit b

/-- Apply a sequence of `CtxOp`s from left to right. -/
def runOps (c : OperationContext) : List CtxOp → OperationContext
  | [] => c
  | o :: rest => runOps (applyOp c o) rest

/-- The outcome an operation writes, if any: `markSuc` and a success-flagged
scope exit write `Suc`, `markCancel` writes `Cancel`, everything else leaves
the outcome alone. -/
def opOutcome : CtxOp → Option OperationResult
  | .markSuc => some .Suc
  | .markCancel => some .Cancel
  | .scopeExit true => some .Suc
  | _ => none

/-- The last outcome written by a sequence of operations, if any. -/
def lastOutcome : List CtxOp → Option OperationResult
  | [] => none
  | o :: rest => (lastOutcome rest).orElse (fun _ => opOutcome o)

/-- Claim C1: every `UvsReason` constructor gets exactly its fixed table code
(Validation 100, Business 101, NotFound 102, Permission 103, Logic 104,
Data 200, System 201, Network 202, Resource 203, Timeout 204, Config 300,
External 301), and no two categories share a code. -/
theorem claim_c1_error_code_table :
    (∀ p, (UvsReason.ValidationError p).error_code = 100)
    ∧ (∀ p, (UvsReason.BusinessError p).error_code = 101)
    ∧ (∀ p, (UvsReason.NotFoundError p).error_code = 102)
    ∧ (∀ p, (UvsReason.PermissionError p).error_code = 103)
    ∧ (∀ p, (UvsReason.LogicError p).error_code = 104)
    ∧ (∀ p pos, (UvsReason.DataError p pos).error_code = 200)
    ∧ (∀ p, (UvsReason.SystemError p).error_code = 201)
    ∧ (∀ p, (UvsReason.NetworkError p).error_code = 202)
    ∧ (∀ p, (UvsReason.ResourceError p).error_code = 203)
    ∧ (∀ p, (UvsReason.TimeoutError p).error_code = 204)
    ∧ (∀ c, (UvsReason.ConfigError c).error_code = 300)
    ∧ (∀ p, (UvsReason.ExternalError p).error_code = 301)
    ∧ (∀ r1 r2 : UvsReason,
        r1.error_code = r2.error_code → r1.category_name = r2.category_name) := by
  refine ⟨fun _ => rfl, fun _ => rfl, fun _ => rfl, fun _ => rfl, fun _ => rfl,
    fun _ _ => rfl, fun _ => rfl, fun _ => rfl, fun _ => rfl, fun _ => rfl,
    fun _ => rfl, fun _ => rfl, ?_⟩
  intro r1 r2 h
  cases r1 <;> cases r2 <;>
    simp_all [UvsReason.error_code, UvsReason.category_name]

/-- Claim C1 witness: two concrete `UvsReason` values with equal codes lie in
the same category. -/
theorem claim_c1_error_code_table_witness :
    (UvsReason.system_error "boom").category_name
      = (UvsReason.system_error "x").category_name :=
  claim_c1_error_code_table.2.2.2.2.2.2.2.2.2.2.2.2
    (UvsReason.system_error "boom") (UvsReason.system_error "x") rfl

/-- Claim C4: `want` is last-write-wins on the displayed target: after
`e.want(A).want(B)` the target is `Some(B)`. -/
theorem claim_c4_want_last_write {T : Type} (e : StructError T) (A B : String) :
    ((e.want A).want B).target = some B := rfl

/-- Claim C7: `is_retryable` is true exactly on the Network, Timeout,
Resource, System and External categories, and false on all others. -/
theorem claim_c7_is_retryable :
    (∀ p, (UvsReason.NetworkError p).is_retryable = true)
    ∧ (∀ p, (UvsReason.TimeoutError p).is_retryable = true)
    ∧ (∀ p, (UvsReason.ResourceError p).is_retryable = true)
    ∧ (∀ p, (UvsReason.SystemError p).is_retryable = true)
    ∧ (∀ p, (UvsReason.ExternalError p).is_retryable = true)
    ∧ (∀ p, (UvsReason.ValidationError p).is_retryable = false)
    ∧ (∀ p, (UvsReason.BusinessError p).is_retryable = false)
    ∧ (∀ p, (UvsReason.NotFoundError p).is_retryable = false)
    ∧ (∀ p, (UvsReason.PermissionError p).is_retryable = false)
    ∧ (∀ p, (UvsReason.LogicError p).is_retryable = false)
    ∧ (∀ p pos, (UvsReason.DataError p pos).is_retryable = false)
    ∧ (∀ c, (UvsReason.ConfigError c).is_retryable = false) :=
  ⟨fun _ => rfl, fun _ => rfl, fun _ => rfl, fun _ => rfl, fun _ => rfl,
    fun _ => rfl, fun _ => rfl, fun _ => rfl, fun _ => rfl, fun _ => rfl,
    fun _ _ => rfl, fun _ => rfl⟩

/-- Claim C9: `StructError::from_uvs` produces a `Universal` reason, swaps the
detail and position fields of its input, and carries target and context over
unchanged. -/
theorem claim_c9_from_uvs_swaps {R R1 : Type} (e : StructError R1) (u : UvsReason) :
    (StructError.from_uvs (R := R) e u).reason = StructReason.Universal u
    ∧ (StructError.from_uvs (R := R) e u).detail = e.position
    ∧ (StructError.from_uvs (R := R) e u).position = e.detail
    ∧ (StructError.from_uvs (R := R) e u).target = e.target
    ∧ (StructError.from_uvs (R := R) e u).context = e.context :=
  ⟨rfl, rfl, rfl, rfl, rfl⟩

/-- Claim C10: the `ErrorCode` trait default returns 500, so a domain reason
type that does not override it, and a `StructError` built over such a domain
reason, both report code 500. -/
theorem claim_c10_default_code {T : Type} (codeT : T → Int)
    (hdefault : ∀ d : T, codeT d = trait_default_error_code)
    (e : StructError T) (d : T) (hreason : e.reason = StructReason.Domain d) :
    trait_default_error_code = 500 ∧ codeT d = 500 ∧ e.error_code codeT = 500 := by
  refine ⟨rfl, hdefault d, ?_⟩
  simp [StructError.error_code, hreason, StructReason.error_code, hdefault d,
    trait_default_error_code]

/-- Claim C10 witness: a concrete domain error over a type using the default
code reports 500. -/
theorem claim_c10_default_code_witness :
    (StructError.domain "x").error_code (fun _ : String => trait_default_error_code) = 500 :=
  (claim_c10_default_code (fun _ : String => trait_default_error_code)
    (fun _ => rfl) (StructError.domain "x") "x" rfl).2.2

/-- Claim C2: `convert_error` keeps detail, position and context unchanged,
passes a `Universal` reason through untouched, and maps a `Domain` reason
through the supplied `From` impl. -/
theorem claim_c2_convert_error {R1 R2 : Type} (f : R1 → StructReason R2)
    (e : StructError R1) :
    (convert_error f e).detail = e.detail
    ∧ (convert_error f e).position = e.position
    ∧ (convert_error f e).context = e.context
    ∧ (∀ u, e.reason = StructReason.Universal u →
        (convert_error f e).reason = StructReason.Universal u)
    ∧ (∀ d, e.reason = StructReason.Domain d → (convert_error f e).reason = f d) := by
  refine ⟨rfl, rfl, rfl, ?_, ?_⟩ <;> intro x hx <;>
    simp [convert_error, convert_reason, StructError.new, hx]

/-- Claim C2 witness: a concrete error with a `Universal` reason keeps it
unchanged through `convert_error`. -/
theorem claim_c2_convert_error_witness :
    (convert_error (fun s : String => StructReason.Domain (s ++ "!"))
      (StructError.new (StructReason.Universal (UvsReason.system_error "boom"))
        (some "d") (some "p") (some "t") ⟨[("k", "v")]⟩)).reason
      = StructReason.Universal (UvsReason.system_error "boom") :=
  (claim_c2_convert_error (fun s : String => StructReason.Domain (s ++ "!"))
    (StructError.new (StructReason.Universal (UvsReason.system_error "boom"))
      (some "d") (some "p") (some "t") ⟨[("k", "v")]⟩)).2.2.2.1
    (UvsReason.system_error "boom") rfl

/-- Claim C5: attaching a fully-formed `OperationContext` to a `StructError`
appends the context's entries after the entries already present, overwrites
the error's target exactly when the context carries one, and leaves the
target unchanged otherwise. -/
theorem claim_c5_with_operation_context {T : Type} (e : StructError T)
    (ctx : WithContext) :
    (e.add_context ctx).context.items = e.context.items ++ ctx.context.items
    ∧ (∀ t, ctx.target = some t → (e.add_context ctx).target = some t)
    ∧ (ctx.target = none → (e.add_context ctx).target = e.target) := by
  refine ⟨rfl, ?_, ?_⟩ <;> intro h1 <;>
    first
    | (intro h2; simp [StructError.add_context, h2])
    | simp [StructError.add_context, h1]

/-- Claim C5 witness: attaching a context that carries a target overwrites a
concrete error's target. -/
theorem claim_c5_with_operation_context_witness :
    (((StructError.domain "d").want "T1").add_context
      (OperationContext.want "T2")).target = some "T2" :=
  (claim_c5_with_operation_context ((StructError.domain "d").want "T1")
    (OperationContext.want "T2")).2.1 "T2" rfl

/-- Claim C3: each `owe_<category>` method passes `Ok` through unchanged and
turns `Err(e)` into a structured error whose detail is `Some(msg)` for
`msg = e.to_string()`, whose reason is the corresponding `UvsReason`
category built from `msg` (lifted into the domain type by its
`From<UvsReason>` impl), and whose `error_code()` is the category's table
code whenever the domain type delegates codes to the embedded `UvsReason`
(the `hdeleg` hypothesis). -/
theorem claim_c3_owe_family {T E R : Type} (fromUvs : UvsReason → R)
    (codeR : R → Int) (toStr : E → String)
    (hdeleg : ∀ u, codeR (fromUvs u) = u.error_code) (e : E) (v : T) :
    ((owe_sys (T := T) fromUvs toStr (.err e)).errDetail = some (toStr e)
      ∧ (owe_sys (T := T) fromUvs toStr (.err e)).errReason
          = some (.Domain (fromUvs (UvsReason.system_error (toStr e))))
      ∧ (owe_sys (T := T) fromUvs toStr (.err e)).errCode codeR = some 201
      ∧ owe_sys fromUvs toStr (.ok v) = (.ok v : Result T (StructError R)))
    ∧ ((owe_biz (T := T) fromUvs toStr (.err e)).errDetail = some (toStr e)
      ∧ (owe_biz (T := T) fromUvs toStr (.err e)).errReason
          = some (.Domain (fromUvs (UvsReason.business_error (toStr e))))
      ∧ (owe_biz (T := T) fromUvs toStr (.err e)).errCode codeR = some 101
      ∧ owe_biz fromUvs toStr (.ok v) = (.ok v : Result T (StructError R)))
    ∧ ((owe_data (T := T) fromUvs toStr (.err e)).errDetail = some (toStr e)
      ∧ (owe_data (T := T) fromUvs toStr (.err e)).errReason
          = some (.Domain (fromUvs (UvsReason.data_error (toStr e) none)))
      ∧ (owe_data (T := T) fromUvs toStr (.err e)).errCode codeR = some 200
      ∧ owe_data fromUvs toStr (.ok v) = (.ok v : Result T (StructError R)))
    ∧ ((owe_conf (T := T) fromUvs toStr (.err e)).errDetail = some (toStr e)
      ∧ (owe_conf (T := T) fromUvs toStr (.err e)).errReason
          = some (.Domain (fromUvs (UvsReason.core_conf (toStr e))))
      ∧ (owe_conf (T := T) fromUvs toStr (.err e)).errCode codeR = some 300
      ∧ owe_conf fromUvs toStr (.ok v) = (.ok v : Result T (StructError R)))
    ∧ ((owe_res (T := T) fromUvs toStr (.err e)).errDetail = some (toStr e)
      ∧ (owe_res (T := T) fromUvs toStr (.err e)).errReason
          = some (.Domain (fromUvs (UvsReason.resource_error (toStr e))))
      ∧ (owe_res (T := T) fromUvs toStr (.err e)).errCode codeR = some 203
      ∧ owe_res fromUvs toStr (.ok v) = (.ok v : Result T (StructError R)))
    ∧ ((owe_net (T := T) fromUvs toStr (.err e)).errDetail = some (toStr e)
      ∧ (owe_net (T := T) fromUvs toStr (.err e)).errReason
          = some (.Domain (fromUvs (UvsReason.network_error (toStr e))))
      ∧ (owe_net (T := T) fromUvs toStr (.err e)).errCode codeR = some 202
      ∧ owe_net fromUvs toStr (.ok v) = (.ok v : Result T (StructError R)))
    ∧ ((owe_timeout (T := T) fromUvs toStr (.err e)).errDetail = some (toStr e)
      ∧ (owe_timeout (T := T) fromUvs toStr (.err e)).errReason
          = some (.Domain (fromUvs (UvsReason.timeout_error (toStr e))))
      ∧ (owe_timeout (T := T) fromUvs toStr (.err e)).errCode codeR = some 204
      ∧ owe_timeout fromUvs toStr (.ok v) = (.ok v : Result T (StructError R)))
    ∧ ((owe_logic (T := T) fromUvs toStr (.err e)).errDetail = some (toStr e)
      ∧ (owe_logic (T := T) fromUvs toStr (.err e)).errReason
          = some (.Domain (fromUvs (UvsReason.logic_error (toStr e))))
      ∧ (owe_logic (T := T) fromUvs toStr (.err e)).errCode codeR = some 104
      ∧ owe_logic fromUvs toStr (.ok v) = (.ok v : Result T (StructError R)))
    ∧ ((owe_validation (T := T) fromUvs toStr (.err e)).errDetail = some (toStr e)
      ∧ (owe_validation (T := T) fromUvs toStr (.err e)).errReason
          = some (.Domain (fromUvs (UvsReason.validation_error (toStr e))))
      ∧ (owe_validation (T := T) fromUvs toStr (.err e)).errCode codeR = some 100
      ∧ owe_validation fromUvs toStr (.ok v) = (.ok v : Result T (StructError R))) := by
  refine ⟨⟨rfl, rfl, ?_, rfl⟩, ⟨rfl, rfl, ?_, rfl⟩, ⟨rfl, rfl, ?_, rfl⟩,
    ⟨rfl, rfl, ?_, rfl⟩, ⟨rfl, rfl, ?_, rfl⟩, ⟨rfl, rfl, ?_, rfl⟩,
    ⟨rfl, rfl, ?_, rfl⟩, ⟨rfl, rfl, ?_, rfl⟩, ⟨rfl, rfl, ?_, rfl⟩⟩
  · show some (codeR (fromUvs (UvsReason.system_error (toStr e)))) = some 201
    rw [hdeleg]
    rfl
  · show some (codeR (fromUvs (UvsReason.business_error (toStr e)))) = some 101
    rw [hdeleg]
    rfl
  · show some (codeR (fromUvs (UvsReason.data_error (toStr e) none))) = some 200
    rw [hdeleg]
    rfl
  · show some (codeR (fromUvs (UvsReason.core_conf (toStr e)))) = some 300
    rw [hdeleg]
    rfl
  · show some (codeR (fromUvs (UvsReason.resource_error (toStr e)))) = some 203
    rw [hdeleg]
    rfl
  · show some (codeR (fromUvs (UvsReason.network_error (toStr e)))) = some 202
    rw [hdeleg]
    rfl
  · show some (codeR (fromUvs (UvsReason.timeout_error (toStr e)))) = some 204
    rw [hdeleg]
    rfl
  · show some (codeR (fromUvs (UvsReason.logic_error (toStr e)))) = some 104
    rw [hdeleg]
    rfl
  · show some (codeR (fromUvs (UvsReason.validation_error (toStr e)))) = some 100
    rw [hdeleg]
    rfl

/-- Claim C3 witness: `Err("boom").owe_sys()` over the identity-lifted
`UvsReason` domain has detail `"boom"` and error code 201. -/
theorem claim_c3_owe_family_witness :
    (owe_sys (T := Nat) (R := UvsReason) (fun u => u) (fun s : String => s)
      (.err "boom")).errDetail = some "boom"
    ∧ (owe_sys (T := Nat) (R := UvsReason) (fun u => u) (fun s : String => s)
      (.err "boom")).errCode UvsReason.error_code = some 201 :=
  ⟨(claim_c3_owe_family (fun u => u) UvsReason.error_code (fun s : String => s)
      (fun _ => rfl) "boom" 0).1.1,
    (claim_c3_owe_family (fun u => u) UvsReason.error_code (fun s : String => s)
      (fun _ => rfl) "boom" 0).1.2.2.1⟩

/-- The context-stack recursion of the source rendering agrees with the
1-indexed enumeration used by the spec-level contract. -/
theorem contextStackLines_eq_enumFrom (items : List (String × String)) (n : Nat) :
    contextStackLines (n + 1) items
      = ((items.enumFrom n).map
          (fun p => "\n     " ++ toString (p.1 + 1) ++ ". " ++ p.2.1 ++ ":" ++ p.2.2)).foldr
          (fun a b => a ++ b) "" := by
  induction items generalizing n with
  | nil => rfl
  | cons kv rest ih =>
      cases kv with
      | mk k v =>
          simp only [contextStackLines, List.enumFrom, List.map, List.foldr]
          rw [show n + 1 + 1 = (n + 1) + 1 from rfl, ih (n + 1)]

/-- Claim C6: the source `Display` rendering of a `StructError` equals the
spec-level rendering contract, for every error value. -/
theorem claim_c6_display_contract {T : Type} (codeT : T → Int)
    (showR : StructReason T → String) (e : StructError T) :
    e.display codeT showR = displayContract codeT showR e := by
  unfold StructError.display displayContract
  cases hp : e.position <;> cases ht : e.target <;> cases hd : e.detail <;>
    cases hi : e.context.items <;>
      simp [List.enum, contextStackLines_eq_enumFrom, List.isEmpty]

/-- Claim C8 counterexample: `Success` and `Cancel` are not terminal — after
`mark_suc` the outcome is `Suc`, yet a further `mark_cancel` moves it to
`Cancel`, and symmetrically `mark_suc` leaves `Cancel`. -/
theorem claim_c8_counterexample :
    (OperationContext.new.mark_suc).result = OperationResult.Suc
    ∧ ((OperationContext.new.mark_suc).mark_cancel).result = OperationResult.Cancel
    ∧ (OperationContext.new.mark_cancel).result = OperationResult.Cancel
    ∧ ((OperationContext.new.mark_cancel).mark_suc).result = OperationResult.Suc :=
  ⟨rfl, rfl, rfl, rfl⟩

/-- Claim C8 amended: the outcome starts as `Fail` and is last-write-wins —
after any sequence of the provided operations it equals the outcome written
by the last outcome-writing operation (`mark_suc` and a success-flagged
scope exit write `Suc`, `mark_cancel` writes `Cancel`), and stays at the
starting outcome when no operation writes one; `Success` and `Cancel` are
not terminal. -/
theorem claim_c8_outcome_last_write (c : OperationContext) (ops : List CtxOp) :
    OperationContext.new.result = OperationResult.Fail
    ∧ (runOps c ops).result = (lastOutcome ops).getD c.result := by
  refine ⟨rfl, ?_⟩
  induction ops generalizing c with
  | nil => rfl
  | cons o rest ih =>
      rw [runOps, lastOutcome, ih (applyOp c o)]
      cases hl : lastOutcome rest with
      | some x => rfl
      | none =>
          cases o with
          | markSuc => rfl
          | markCancel => rfl
          | record k v => rfl
          | withWant t => rfl
          | withAutoLog => rfl
          | scopeExit b => cases b <;> rfl

end OrionError
